import Mathlib

/-!
Shallow embedding of `cad/part1.py` (Hotplate-Safety-Silicone-Mold-CAD).

The script builds constructive solid geometry (CSG) parts by calling the
build123d kernel.  We embed the parts as a syntax tree (`Part`) whose
constructors mirror the kernel calls that the script performs (box and
cylinder primitives, boolean add/sub/inter, fillet, translate, scale), and
give the tree a denotational semantics `denote` into sets of rational
points.  Filleting is kernel-owned geometry that cannot be written in
closed form, so `denote` is parameterized by an arbitrary interpretation
`fi` of fillet nodes; geometric theorems assume only `FilletShrinks fi`
(filleting never adds material), which holds for the convex-edge fillets
the script performs.

All dimensional constants of the script are exact decimals, so ℚ models
them without loss.
-/

namespace HotplateMold

/-- A point of 3-space, with rational coordinates. -/
abbrev Pt : Type := ℚ × ℚ × ℚ

/-- Per-axis alignment of a primitive of extent `len` along one axis:
`lo` places its minimum face at the origin plane (the solid occupies
`[0, len]`), `mid` centers it (`[-len/2, len/2]`), and `hi` places its
maximum face at the origin plane (`[-len, 0]`). -/
inductive AlignAxis : Type
  | lo
  | mid
  | hi
deriving DecidableEq

/-- The interval constraint that one axis of an aligned box puts on the
corresponding coordinate `c`. -/
def AlignAxis.interval (a : AlignAxis) (len c : ℚ) : Prop :=
  match a with
  | .lo => 0 ≤ c ∧ c ≤ len
  | .mid => -(len / 2) ≤ c ∧ c ≤ len / 2
  | .hi => -len ≤ c ∧ c ≤ 0

/-- Alignment triple (x, y, z) for a box, mirroring `build123d_ease`
(`bde.align.*`) constants.  The default `bd.Box` alignment is centered. -/
abbrev AlignSpec : Type := AlignAxis × AlignAxis × AlignAxis

/-- `bde.align` constant: centered on all axes (the `bd.Box` default). -/
def align_CENTER : AlignSpec := (.mid, .mid, .mid)

/-- `bde.align.TOP`: top (maximum-Z) face on the Z = 0 plane; the solid
extends downward.  This is the convention the script's comments rely on
("stack it up from the bottom"). -/
def align_TOP : AlignSpec := (.mid, .mid, .hi)

/-- `bde.align.BOTTOM`: bottom (minimum-Z) face on the Z = 0 plane; the
solid extends upward. -/
def align_BOTTOM : AlignSpec := (.mid, .mid, .lo)

/-- `bde.align.LEFT`: minimum-X face on the X = 0 plane; the solid extends
toward positive X.  This matches the script's comment "Keep only the
positive X side" on the `& bd.Box(..., align=bde.align.LEFT)` step. -/
def align_LEFT : AlignSpec := (.lo, .mid, .mid)

/-- `bde.align.FRONT`: minimum-Y face on the Y = 0 plane; the solid extends
toward positive Y. -/
def align_FRONT : AlignSpec := (.mid, .lo, .mid)

/-- `bde.align.BACK`: maximum-Y face on the Y = 0 plane; the solid extends
toward negative Y. -/
def align_BACK : AlignSpec := (.mid, .hi, .mid)

/-- A `bd.Box(lx, ly, lz, align)` primitive. -/
structure BoxSpec : Type where
  lx : ℚ
  ly : ℚ
  lz : ℚ
  align : AlignSpec
deriving DecidableEq

/-- The rotations the script applies to cylinders: `bde.rotation.POS_X`
(cylinder axis along +X) and `bde.rotation.NEG_X` (axis along -X).  Every
cylinder in the script carries one of these two rotations. -/
inductive Rot : Type
  | posX
  | negX
deriving DecidableEq

/-- A `bd.Cylinder(radius, height, rotation, align)` primitive.
`alignBase = true` models `align=bde.align.BOTTOM` ("normal" for the
rotation, per the script's comments): the cylinder's base sits at the
origin and it extends along its rotated axis.  `alignBase = false` is the
default centered alignment. -/
structure CylSpec : Type where
  radius : ℚ
  height : ℚ
  rot : Rot
  alignBase : Bool
deriving DecidableEq

/-- Which edges a `.fillet` call receives: the part's whole edge list, or
the edges filtered by `bd.Axis.Z` (the only filter the script uses). -/
inductive EdgeFilter : Type
  | allEdges
  | alongZ
deriving DecidableEq

/-- Syntax tree of the kernel solids the script builds.  `empty` is the
fresh `bd.Part()`, and `add`/`sub`/`inter` are the `+`/`-`/`&` boolean
operations. -/
inductive Part : Type
  | empty
  | box (s : BoxSpec)
  | cylinder (c : CylSpec)
  | add (p q : Part)
  | sub (p q : Part)
  | inter (p q : Part)
  | fillet (p : Part) (radius : ℚ) (edges : EdgeFilter)
  | translate (p : Part) (v : Pt)
  | scale (p : Part) (factor : ℚ)
deriving DecidableEq

/-- Point set of an aligned box primitive. -/
def boxSet (s : BoxSpec) : Set Pt :=
  {q | s.align.1.interval s.lx q.1 ∧ s.align.2.1.interval s.ly q.2.1 ∧
    s.align.2.2.interval s.lz q.2.2}

/-- The interval that a rotated, possibly base-aligned cylinder occupies
along the X axis. -/
def cylXInterval (c : CylSpec) (x : ℚ) : Prop :=
  match c.rot, c.alignBase with
  | .posX, true => 0 ≤ x ∧ x ≤ c.height
  | .posX, false => -(c.height / 2) ≤ x ∧ x ≤ c.height / 2
  | .negX, true => -c.height ≤ x ∧ x ≤ 0
  | .negX, false => -(c.height / 2) ≤ x ∧ x ≤ c.height / 2

/-- Point set of a cylinder primitive.  Both rotations put the cylinder's
axis on the X axis, so the cross-section constraint is on (y, z). -/
def cylSet (c : CylSpec) : Set Pt :=
  {q | cylXInterval c q.1 ∧ q.2.1 ^ 2 + q.2.2 ^ 2 ≤ c.radius ^ 2}

/-- An interpretation of fillet nodes: from the point set of the part
being filleted, the fillet radius and the edge selection, the point set of
the filleted part. -/
abbrev FilletInterp : Type := Set Pt → ℚ → EdgeFilter → Set Pt

/-- A fillet interpretation that never adds material.  The script only
fillets convex edges (the outer rim of a box, vertical edges of boxes),
where the kernel's fillet removes material. -/
def FilletShrinks (fi : FilletInterp) : Prop :=
  ∀ (s : Set Pt) (r : ℚ) (e : EdgeFilter), fi s r e ⊆ s

/-- The fillet interpretation that leaves the part unchanged; it
trivially satisfies `FilletShrinks`. -/
def trivialFillet : FilletInterp := fun s _ _ => s

/-- Denotational semantics of a part as a set of points, given an
interpretation of fillet nodes. -/
def denote (fi : FilletInterp) : Part → Set Pt
  | .empty => ∅
  | .box s => boxSet s
  | .cylinder c => cylSet c
  | .add p q => denote fi p ∪ denote fi q
  | .sub p q => denote fi p \ denote fi q
  | .inter p q => denote fi p ∩ denote fi q
  | .fillet p r e => fi (denote fi p) r e
  | .translate p v =>
      {q | (q.1 - v.1, q.2.1 - v.2.1, q.2.2 - v.2.2) ∈ denote fi p}
  | .scale p f =>
      {q | (q.1 / f, q.2.1 / f, q.2.2 / f) ∈ denote fi p}

/-! Dimensional constants of `cad/part1.py` (lines 13-44). -/

def top_level_width : ℚ := 218

def top_level_height : ℚ := 39

def hot_level_width : ℚ := 200

def hot_level_height : ℚ := 3.5

/-- Thickness in X/Y of the silicone parts. -/
def silicone_vertical_wall_t : ℚ := 3.5

/-- Thickness in Z, on top of plate. -/
def silicone_horizontal_wall_t : ℚ := 3

def silicone_dist_on_top : ℚ := 25

def silicone_dist_on_bottom : ℚ := 10

def silicone_dist_on_top_radius : ℚ := 5

def silicone_dist_on_bottom_radius : ℚ := 15

def silicone_box_outer_radius : ℚ := 2

/-- Thickness of the molds. -/
def mold_general_t : ℚ := 1.8

def bolt_diameter : ℚ := 3.2

def bolt_standoff_od : ℚ := 7

def bolt_standoff_length : ℚ := silicone_vertical_wall_t

/-- `itertools.product([20, 85, -20, -85], [10, -10])`: the eight (y, z)
offsets of the bolt holes. -/
def bolt_hole_signs : List (ℚ × ℚ) :=
  ([20, 85, -20, -85] : List ℚ).flatMap fun a =>
    ([10, -10] : List ℚ).map fun b => (a, b)

def pouring_hole_diameter : ℚ := 28

def top_filament_saver_box : ℚ × ℚ × ℚ := (125, 125, 100)

def bottom_filament_saver_box : ℚ × ℚ × ℚ := (170, 192, 100)

/-! Calculated dimensions (lines 46-56). -/

def total_cast_outside_length : ℚ :=
  2 * silicone_vertical_wall_t + max hot_level_width top_level_width

def total_cast_outside_height : ℚ :=
  2 * silicone_horizontal_wall_t + (hot_level_height + top_level_height)

def total_mold_outside_length : ℚ :=
  2 * mold_general_t + total_cast_outside_length

def total_mold_outside_height : ℚ :=
  2 * mold_general_t + total_cast_outside_height

/-! The part-construction functions (lines 68-313).  Each mirrors the
source statement by statement; `p += x`, `p -= x`, `p &= ...` become
`Part.add`, `Part.sub`, `Part.inter` steps on an accumulator threaded
through `let` bindings, starting from the fresh `bd.Part()`. -/

/-- Python truthiness of the integer literal guards `if 0:` / `if 1:`
appearing in the source. -/
def pythonTruthy (n : Nat) : Bool := n ≠ 0

/-- `make_plate_model` (lines 68-89): a model of the literal hot plate,
the wide base plate stacked under the hot part. -/
def make_plate_model : Part :=
  let p := Part.empty
  let p := p.add (.box ⟨top_level_width, top_level_width, top_level_height,
    align_TOP⟩)
  let p := p.add (.box ⟨hot_level_width, hot_level_width, hot_level_height,
    align_BOTTOM⟩)
  p

/-- `_make_silicone_cast_positive_outline` (lines 92-102): the filleted
outside box of the cast. -/
def _make_silicone_cast_positive_outline : Part :=
  (Part.empty.add (.box ⟨total_cast_outside_length,
    total_cast_outside_length, total_cast_outside_height,
    align_CENTER⟩)).fillet silicone_box_outer_radius .allEdges

/-- The value of the kernel query `plate_model.center().Z` (line 121): the
center of mass of the two stacked plate boxes.  No theorem below depends
on this value (the translated plate is only ever subtracted). -/
def plate_model_center_z : ℚ :=
  (top_level_width ^ 2 * top_level_height * (-(top_level_height / 2)) +
      hot_level_width ^ 2 * hot_level_height * (hot_level_height / 2)) /
    (top_level_width ^ 2 * top_level_height +
      hot_level_width ^ 2 * hot_level_height)

/-- `make_silicone_cast_positive` (lines 105-161).  The keyword-only
argument `remove_real_hot_plate` defaults to `True` in the source; callers
here pass it explicitly.  The final "keep only the positive X side" block
is guarded by the integer literal `0`. -/
def make_silicone_cast_positive (remove_real_hot_plate : Bool) : Part :=
  let p := Part.empty
  let p := p.add _make_silicone_cast_positive_outline
  let p := if remove_real_hot_plate then
      p.sub (make_plate_model.translate (0, 0, -plate_model_center_z))
    else p
  let p := p.sub ((Part.empty.add (.box
    ⟨hot_level_width - 2 * silicone_dist_on_top,
      hot_level_width - 2 * silicone_dist_on_top, 100,
      align_BOTTOM⟩)).fillet silicone_dist_on_top_radius .alongZ)
  let p := p.sub ((Part.empty.add (.box
    ⟨top_level_width - 2 * silicone_dist_on_bottom,
      top_level_width - 2 * silicone_dist_on_bottom, 100,
      align_TOP⟩)).fillet silicone_dist_on_bottom_radius .alongZ)
  let p := if pythonTruthy 0 then
      p.inter (.box ⟨1000, 1000, 1000, align_LEFT⟩)
    else p
  p

/-- The value of the kernel query `cast.bounding_box().center().Z`
(line 181), where `cast` is the outline: the outline box is centered at
the origin and filleting does not move its bounding-box center, so the
query returns 0. -/
def cast_outline_bbox_center_z : ℚ := 0

/-- `make_silicone_mold_outer` (lines 164-237): the outer portion of the
silicone mold.  The final "keep only the positive X side" block is guarded
by the integer literal `1`. -/
def make_silicone_mold_outer (with_pour_hole : Bool) : Part :=
  let p := Part.empty
  let p := p.add (.box ⟨total_mold_outside_length, total_mold_outside_length,
    total_mold_outside_height, align_CENTER⟩)
  let cast := _make_silicone_cast_positive_outline
  let p := p.sub (cast.translate (0, 0, cast_outline_bbox_center_z))
  let p := if with_pour_hole then
      p.sub (.cylinder ⟨pouring_hole_diameter / 2, 1000, .posX, true⟩)
    else p
  let p := p.sub (.box ⟨top_filament_saver_box.1 - 8,
    top_filament_saver_box.2.1 - 8, top_filament_saver_box.2.2 - 8,
    align_CENTER⟩)
  let p := p.sub (.box ⟨bottom_filament_saver_box.1 - 8,
    bottom_filament_saver_box.2.1 - 8, bottom_filament_saver_box.2.2 - 8,
    align_TOP⟩)
  let p := bolt_hole_signs.foldl (fun p yz =>
    let p := p.add ((Part.cylinder
      ⟨bolt_standoff_od / 2, bolt_standoff_length, .negX, true⟩).translate
      (total_cast_outside_length / 2, yz.1, yz.2))
    let p := p.sub ((Part.cylinder
      ⟨bolt_diameter / 2, 1000, .posX, true⟩).translate (0, yz.1, yz.2))
    p) p
  let p := if pythonTruthy 1 then
      p.inter (.box ⟨1000, 1000, 1000, align_LEFT⟩)
    else p
  p

/-- The value of the kernel query
`p.faces().sort_by(bd.Axis.Z)[-1].center().Z` (line 268): at that point
`p` is the outline minus subtracted material, whose top face is still the
outline box's top plane, at `total_cast_outside_height / 2`.  No theorem
below depends on this value (it only offsets a subtracted box). -/
def inner_top_face_z : ℚ := total_cast_outside_height / 2

/-- `make_silicone_mold_inner` (lines 240-275): the inner portion of the
silicone mold. -/
def make_silicone_mold_inner : Part :=
  let p := Part.empty
  let p := p.add _make_silicone_cast_positive_outline
  let p := p.sub (make_silicone_cast_positive true)
  let p := bolt_hole_signs.foldl (fun p yz =>
    p.sub ((Part.cylinder
      ⟨bolt_diameter / 2, 1000, .posX, false⟩).translate (0, yz.1, yz.2))) p
  let p := p.sub (.box ⟨top_filament_saver_box.1, top_filament_saver_box.2.1,
    top_filament_saver_box.2.2, align_CENTER⟩)
  let p := p.sub ((Part.box ⟨bottom_filament_saver_box.1,
    bottom_filament_saver_box.2.1, bottom_filament_saver_box.2.2,
    align_TOP⟩).translate (0, 0, inner_top_face_z - hot_level_height -
      silicone_horizontal_wall_t - mold_general_t))
  p

/-- `make_silicone_mold_inner_half` (lines 278-300): a half of the inner
mold, selected by the string `side`; an unrecognized string raises
`ValueError(f"Invalid side: {side}")`, modelled as `Except.error`. -/
def make_silicone_mold_inner_half (side : String) : Except String Part :=
  let p := make_silicone_mold_inner
  if side = "left" then
    .ok (p.inter (.box ⟨1000, 1000, 1000, align_FRONT⟩))
  else if side = "right" then
    .ok (p.inter (.box ⟨1000, 1000, 1000, align_BACK⟩))
  else
    .error ("Invalid side: " ++ side)

/-- `make_mold_assembly` (lines 303-313): outer part without pour hole
plus the inner part scaled by 0.995. -/
def make_mold_assembly : Part :=
  let p := Part.empty
  let p := p.add (make_silicone_mold_outer false)
  let p := p.add (make_silicone_mold_inner.scale 0.995)
  p

/-! The `__main__` block (lines 316-351): build the parts mapping, then
write `<name>.stl` and `<name>.step` into the `build` directory for each
entry, after asserting that the entry is a `bd.Part` instance. -/

/-- A Python value stored in the `parts` dict: a `bd.Part` instance, or
any non-`Part` value (what the `assert isinstance(part, bd.Part)` on
line 346 guards against). -/
inductive PyValue : Type
  | part (p : Part)
  | notAPart
deriving DecidableEq

/-- Modelled from the spec: `build123d_ease.show` (an external import not
in this repository; `show` is a Lean keyword, hence the name `showPart`) displays the part — "optionally skip interactive
viewing when an environment indicator is set" — and returns the part it
was given, which the `parts` dict then stores. -/
def showPart (p : Part) : PyValue := .part p

/-- The `parts` dict of the `__main__` block (lines 321-338), in source
order. -/
def parts : List (String × PyValue) :=
  [("1x_silicone_mold_outer_with_hole",
      showPart (make_silicone_mold_outer true)),
    ("1x_silicone_mold_outer_without_hole",
      showPart (make_silicone_mold_outer false)),
    ("1x_silicone_mold_inner_half_left",
      match make_silicone_mold_inner_half "left" with
      | .ok p => .part p
      | .error _ => .notAPart),
    ("1x_silicone_mold_inner_half_right",
      match make_silicone_mold_inner_half "right" with
      | .ok p => .part p
      | .error _ => .notAPart),
    ("zz_plate_model", .part make_plate_model),
    ("zz_silicone_cast_positive", .part (make_silicone_cast_positive true)),
    ("zz_silicone_mold_inner", .part make_silicone_mold_inner),
    ("zz_mold_assembly", .part make_mold_assembly)]

/-- The export loop of the `__main__` block (lines 345-350): for each
entry, assert it is a `bd.Part` (raising `AssertionError` with the message
`f"{name} is not a Part"` otherwise), then write `<name>.stl` and
`<name>.step` into the `build` export folder.  Returns the list of file
paths written, or the failure message of the first failing assert. -/
def exportLoop : List (String × PyValue) → Except String (List String)
  | [] => .ok []
  | (name, v) :: rest =>
    match v with
    | .part _ =>
      match exportLoop rest with
      | .ok files =>
        .ok (("build/" ++ name ++ ".stl") :: ("build/" ++ name ++ ".step")
          :: files)
      | .error e => .error e
    | .notAPart => .error (name ++ " is not a Part")

/-- The explicit guard statements appearing anywhere in the script, in
source order: the `raise ValueError(f"Invalid side: {side}")` in
`make_silicone_mold_inner_half` (line 298), and the
`assert isinstance(part, bd.Part), f"{name} is not a Part"` in the
`__main__` export loop (line 346).  (The `assert part.is_manifold` on
line 347 is commented out and is not an explicit check.) -/
inductive ExplicitCheck : Type
  | raise_invalid_side
  | assert_is_part
deriving DecidableEq

/-- The script's explicit checks, in source order. -/
def script_explicit_checks : List ExplicitCheck :=
  [.raise_invalid_side, .assert_is_part]

/-! An observer on part syntax trees: the (y, z) translations at which
X-axis bolt-hole cylinders (radius `bolt_diameter / 2`, height 1000,
rotated to +X) are subtracted.  Subtrahends in the script are always a
primitive or a translated primitive, which is what the observer
recognizes. -/

/-- The (y, z) translation of a subtrahend, when it is a translated +X
cylinder of radius `bolt_diameter / 2` and height 1000. -/
def boltHoleYZofSubtrahend : Part → List (ℚ × ℚ)
  | .translate (.cylinder c) v =>
    if c.radius = bolt_diameter / 2 ∧ c.height = 1000 ∧ c.rot = .posX then
      [(v.2.1, v.2.2)]
    else []
  | _ => []

/-- All (y, z) translations of subtracted bolt-hole cylinders in a part
tree, in subtraction order. -/
def subbedBoltHoleYZ : Part → List (ℚ × ℚ)
  | .empty => []
  | .box _ => []
  | .cylinder _ => []
  | .add p q => subbedBoltHoleYZ p ++ subbedBoltHoleYZ q
  | .sub p q => subbedBoltHoleYZ p ++ boltHoleYZofSubtrahend q
  | .inter p q => subbedBoltHoleYZ p ++ subbedBoltHoleYZ q
  | .fillet p _ _ => subbedBoltHoleYZ p
  | .translate p _ => subbedBoltHoleYZ p
  | .scale p _ => subbedBoltHoleYZ p

/-! Decomposition of `make_silicone_mold_outer` around its single
branch, used to state that the pour hole is the only difference between
the two flag values. -/

/-- The construction steps of `make_silicone_mold_outer` before the
pour-hole branch (lines 167-183): the outer box, minus the translated
cast outline. -/
def mold_outer_before_pour : Part :=
  (Part.empty.add (.box ⟨total_mold_outside_length,
    total_mold_outside_length, total_mold_outside_height,
    align_CENTER⟩)).sub
    (_make_silicone_cast_positive_outline.translate
      (0, 0, cast_outline_bbox_center_z))

/-- The construction steps of `make_silicone_mold_outer` after the
pour-hole branch (lines 194-237): both filament-saver subtractions, the
eight standoff additions and bolt-hole subtractions, and the final
positive-X intersection. -/
def mold_outer_after_pour (p : Part) : Part :=
  let p := p.sub (.box ⟨top_filament_saver_box.1 - 8,
    top_filament_saver_box.2.1 - 8, top_filament_saver_box.2.2 - 8,
    align_CENTER⟩)
  let p := p.sub (.box ⟨bottom_filament_saver_box.1 - 8,
    bottom_filament_saver_box.2.1 - 8, bottom_filament_saver_box.2.2 - 8,
    align_TOP⟩)
  let p := bolt_hole_signs.foldl (fun p yz =>
    let p := p.add ((Part.cylinder
      ⟨bolt_standoff_od / 2, bolt_standoff_length, .negX, true⟩).translate
      (total_cast_outside_length / 2, yz.1, yz.2))
    let p := p.sub ((Part.cylinder
      ⟨bolt_diameter / 2, 1000, .posX, true⟩).translate (0, yz.1, yz.2))
    p) p
  p.inter (.box ⟨1000, 1000, 1000, align_LEFT⟩)

/-! Helper lemmas shared by several theorems. -/

/-- `make_silicone_mold_outer` factors through the pour-hole branch: the
steps before and after it do not depend on the flag. -/
theorem mold_outer_decompose (b : Bool) :
    make_silicone_mold_outer b =
      mold_outer_after_pour (if b then
        mold_outer_before_pour.sub
          (.cylinder ⟨pouring_hole_diameter / 2, 1000, .posX, true⟩)
        else mold_outer_before_pour) := by
  cases b <;> rfl

/-- `bolt_hole_signs` evaluates to the eight (y, z) pairs in the product
order of `itertools.product`. -/
theorem bolt_hole_signs_eq :
    bolt_hole_signs = [(20, 10), (20, -10), (85, 10), (85, -10), (-20, 10),
      (-20, -10), (-85, 10), (-85, -10)] := rfl

/-- A point of a boolean difference lies in the minuend. -/
theorem mem_denote_sub {fi : FilletInterp} {p q : Part} {r : Pt}
    (h : r ∈ denote fi (p.sub q)) : r ∈ denote fi p := h.1

/-- A point surviving a left fold of subtraction-only steps lies in the
initial part. -/
theorem mem_denote_foldl {fi : FilletInterp} (f : Part → ℚ × ℚ → Part)
    (hf : ∀ (p : Part) (yz : ℚ × ℚ) (r : Pt),
      r ∈ denote fi (f p yz) → r ∈ denote fi p) :
    ∀ (l : List (ℚ × ℚ)) (p : Part) (r : Pt),
      r ∈ denote fi (l.foldl f p) → r ∈ denote fi p := by
  intro l
  induction l with
  | nil => exact fun p r h => h
  | cons a t ih => exact fun p r h => hf _ _ _ (ih _ _ h)

/-! Claim theorems. -/

/-- C1: `make_silicone_mold_inner_half` is a three-way selection on the
string `side`: "left" yields the inner mold intersected with a
FRONT-aligned selector box, "right" yields the inner mold intersected
with a BACK-aligned selector box, and every other string raises
`ValueError(f"Invalid side: {side}")`. -/
theorem inner_half_three_way_selection :
    make_silicone_mold_inner_half "left" =
      .ok (make_silicone_mold_inner.inter
        (.box ⟨1000, 1000, 1000, align_FRONT⟩)) ∧
    make_silicone_mold_inner_half "right" =
      .ok (make_silicone_mold_inner.inter
        (.box ⟨1000, 1000, 1000, align_BACK⟩)) ∧
    ∀ side : String, side ≠ "left" → side ≠ "right" →
      make_silicone_mold_inner_half side =
        .error ("Invalid side: " ++ side) := by
  refine ⟨rfl, rfl, fun side h1 h2 => ?_⟩
  simp [make_silicone_mold_inner_half, h1, h2]

/-- Witness for C1: the side "top" is rejected with the ValueError
message. -/
theorem inner_half_three_way_selection_witness :
    make_silicone_mold_inner_half "top" = .error "Invalid side: top" :=
  inner_half_three_way_selection.2.2 "top" (by decide) (by decide)

/-- C5: the inner mold is split into halves by intersection with
1000-cube selector boxes: the "left" half is the inner mold intersected
with the FRONT-aligned box and the "right" half is the inner mold
intersected with the BACK-aligned box. -/
theorem inner_half_eq_inner_inter_selector :
    make_silicone_mold_inner_half "left" =
      .ok (Part.inter make_silicone_mold_inner
        (.box ⟨1000, 1000, 1000, align_FRONT⟩)) ∧
    make_silicone_mold_inner_half "right" =
      .ok (Part.inter make_silicone_mold_inner
        (.box ⟨1000, 1000, 1000, align_BACK⟩)) :=
  ⟨rfl, rfl⟩

/-- C2: run as a script, the export loop writes both `<name>.stl` and
`<name>.step` into the `build` directory for each of the eight named
parts, in dict order. -/
theorem main_exports_stl_and_step_for_each_part :
    exportLoop parts = .ok
      ["build/1x_silicone_mold_outer_with_hole.stl",
        "build/1x_silicone_mold_outer_with_hole.step",
        "build/1x_silicone_mold_outer_without_hole.stl",
        "build/1x_silicone_mold_outer_without_hole.step",
        "build/1x_silicone_mold_inner_half_left.stl",
        "build/1x_silicone_mold_inner_half_left.step",
        "build/1x_silicone_mold_inner_half_right.stl",
        "build/1x_silicone_mold_inner_half_right.step",
        "build/zz_plate_model.stl",
        "build/zz_plate_model.step",
        "build/zz_silicone_cast_positive.stl",
        "build/zz_silicone_cast_positive.step",
        "build/zz_silicone_mold_inner.stl",
        "build/zz_silicone_mold_inner.step",
        "build/zz_mold_assembly.stl",
        "build/zz_mold_assembly.step"] := rfl

/-- C3, counterexample: the ValueError in `make_silicone_mold_inner_half`
is not the only explicit check in the script; the `__main__` export loop
also asserts `isinstance(part, bd.Part)`, and that assert is a genuine
rejection path for non-`Part` values. -/
theorem explicit_checks_not_only_value_error :
    script_explicit_checks ≠ [ExplicitCheck.raise_invalid_side] ∧
    ExplicitCheck.assert_is_part ∈ script_explicit_checks ∧
    exportLoop [("demo", PyValue.notAPart)] =
      .error "demo is not a Part" :=
  ⟨by decide, by decide, rfl⟩

/-- C3, amended: the script has exactly two explicit checks, the
ValueError for an invalid side and the isinstance assert of the
`__main__` export loop; on the actual parts mapping the assert always
passes, so the export loop succeeds. -/
theorem explicit_checks_are_value_error_and_assert :
    script_explicit_checks =
      [ExplicitCheck.raise_invalid_side, ExplicitCheck.assert_is_part] ∧
    (exportLoop parts).isOk = true :=
  ⟨rfl, rfl⟩

/-- C7: every part-construction function is deterministic: it is a pure
function of its arguments (the embedding threads no state), so equal
arguments give equal solids. -/
theorem part_functions_deterministic :
    (∀ b₁ b₂ : Bool, b₁ = b₂ →
      make_silicone_cast_positive b₁ = make_silicone_cast_positive b₂) ∧
    (∀ b₁ b₂ : Bool, b₁ = b₂ →
      make_silicone_mold_outer b₁ = make_silicone_mold_outer b₂) ∧
    (∀ s₁ s₂ : String, s₁ = s₂ →
      make_silicone_mold_inner_half s₁ = make_silicone_mold_inner_half s₂) ∧
    make_plate_model = make_plate_model ∧
    make_silicone_mold_inner = make_silicone_mold_inner ∧
    make_mold_assembly = make_mold_assembly :=
  ⟨fun _ _ h => by rw [h], fun _ _ h => by rw [h], fun _ _ h => by rw [h],
    rfl, rfl, rfl⟩

/-- Witness for C7: determinism at the concrete argument `True`. -/
theorem part_functions_deterministic_witness :
    make_silicone_cast_positive true = make_silicone_cast_positive true :=
  part_functions_deterministic.1 true true rfl

/-- C4: the `with_pour_hole` flag is the only branch of
`make_silicone_mold_outer`; its sole effect is whether a +X cylinder of
diameter `pouring_hole_diameter` = 28 and height 1000 is subtracted after
the cast-outline subtraction, and all other steps are the flag-independent
`mold_outer_before_pour` and `mold_outer_after_pour` pipelines. -/
theorem mold_outer_pour_hole_is_only_branch :
    (∀ b : Bool, make_silicone_mold_outer b =
      mold_outer_after_pour (if b then
        mold_outer_before_pour.sub
          (.cylinder ⟨pouring_hole_diameter / 2, 1000, .posX, true⟩)
        else mold_outer_before_pour)) ∧
    pouring_hole_diameter = 28 :=
  ⟨mold_outer_decompose, rfl⟩

/-- C9: the outer mold (for either flag value) and the inner mold
subtract their X-axis bolt-hole cylinders (radius `bolt_diameter / 2`,
height 1000, rotated to +X) at exactly the same eight (y, z) translations,
the elements of `bolt_hole_signs`, so the bolt holes of the two parts are
coaxial. -/
theorem bolt_holes_coaxial :
    (∀ b : Bool,
      subbedBoltHoleYZ (make_silicone_mold_outer b) = bolt_hole_signs) ∧
    subbedBoltHoleYZ make_silicone_mold_inner = bolt_hole_signs ∧
    bolt_hole_signs = [(20, 10), (20, -10), (85, 10), (85, -10), (-20, 10),
      (-20, -10), (-85, 10), (-85, -10)] := by
  refine ⟨fun b => ?_, ?_, rfl⟩
  · cases b <;>
      simp [make_silicone_mold_outer, subbedBoltHoleYZ,
        boltHoleYZofSubtrahend, bolt_hole_signs_eq, pythonTruthy,
        _make_silicone_cast_positive_outline,
        pouring_hole_diameter, bolt_diameter]
  · simp [make_silicone_mold_inner, subbedBoltHoleYZ,
      boltHoleYZofSubtrahend, bolt_hole_signs_eq,
      make_silicone_cast_positive, _make_silicone_cast_positive_outline,
      make_plate_model, pythonTruthy]

/-- C6: `make_plate_model` is the union of exactly two boxes: the
218 x 218 x 39 base plate whose top face lies on Z = 0 (it occupies
-39 ≤ z ≤ 0), and the 200 x 200 x 3.5 hot part whose bottom face lies on
Z = 0 (it occupies 0 ≤ z ≤ 3.5). -/
theorem plate_model_is_union_of_two_boxes :
    make_plate_model =
      (Part.empty.add (.box ⟨top_level_width, top_level_width,
        top_level_height, align_TOP⟩)).add
        (.box ⟨hot_level_width, hot_level_width, hot_level_height,
          align_BOTTOM⟩) ∧
    top_level_width = 218 ∧ top_level_height = 39 ∧
    hot_level_width = 200 ∧ hot_level_height = 3.5 ∧
    ∀ fi : FilletInterp, denote fi make_plate_model =
      {q : Pt | -109 ≤ q.1 ∧ q.1 ≤ 109 ∧ -109 ≤ q.2.1 ∧ q.2.1 ≤ 109 ∧
        -39 ≤ q.2.2 ∧ q.2.2 ≤ 0} ∪
      {q : Pt | -100 ≤ q.1 ∧ q.1 ≤ 100 ∧ -100 ≤ q.2.1 ∧ q.2.1 ≤ 100 ∧
        0 ≤ q.2.2 ∧ q.2.2 ≤ 3.5} := by
  refine ⟨rfl, rfl, rfl, rfl, rfl, fun fi => ?_⟩
  ext q
  simp only [make_plate_model, denote, boxSet, align_TOP, align_BOTTOM,
    AlignAxis.interval, top_level_width, top_level_height, hot_level_width,
    hot_level_height, Set.mem_union, Set.mem_setOf_eq, Set.empty_union,
    Set.mem_empty_iff_false, false_or]
  norm_num
  tauto

/-- The body of `make_silicone_cast_positive` without the dead
"keep only the positive X side" block (lines 152-159), whose guard is the
integer literal `0`. -/
def cast_positive_unclipped (remove_real_hot_plate : Bool) : Part :=
  let p := Part.empty
  let p := p.add _make_silicone_cast_positive_outline
  let p := if remove_real_hot_plate then
      p.sub (make_plate_model.translate (0, 0, -plate_model_center_z))
    else p
  let p := p.sub ((Part.empty.add (.box
    ⟨hot_level_width - 2 * silicone_dist_on_top,
      hot_level_width - 2 * silicone_dist_on_top, 100,
      align_BOTTOM⟩)).fillet silicone_dist_on_top_radius .alongZ)
  let p := p.sub ((Part.empty.add (.box
    ⟨top_level_width - 2 * silicone_dist_on_bottom,
      top_level_width - 2 * silicone_dist_on_bottom, 100,
      align_TOP⟩)).fillet silicone_dist_on_bottom_radius .alongZ)
  p

/-- C8: for either flag value, every point of the outer mold has
nonnegative X (the final step always intersects with the LEFT-aligned
1000-cube, its guard being the literal `1`), while the analogous
intersection in `make_silicone_cast_positive` is guarded by the literal
`0` and is never applied: the cast positive equals the unclipped pipeline
and so keeps both sides. -/
theorem mold_outer_positive_x_and_cast_unclipped :
    (∀ (b : Bool) (fi : FilletInterp) (q : Pt),
      q ∈ denote fi (make_silicone_mold_outer b) → 0 ≤ q.1) ∧
    (∀ b : Bool, make_silicone_cast_positive b = cast_positive_unclipped b) ∧
    pythonTruthy 1 = true ∧ pythonTruthy 0 = false := by
  refine ⟨fun b fi q hq => ?_, fun b => by cases b <;> rfl, rfl, rfl⟩
  rw [mold_outer_decompose] at hq
  have h2 : q ∈ boxSet ⟨1000, 1000, 1000, align_LEFT⟩ := by
    simp only [mold_outer_after_pour, denote] at hq
    exact hq.2
  simp only [boxSet, align_LEFT, AlignAxis.interval, Set.mem_setOf_eq] at h2
  exact h2.1.1

/-- The point (114, 50, 0) lies in the outer mold (without pour hole),
under the trivial fillet interpretation: it is inside the outer box and
the positive-X selector, and misses the cast outline, both filament-saver
boxes and all eight bolt holes. -/
theorem outer_sample_point_mem :
    ((114 : ℚ), (50 : ℚ), (0 : ℚ)) ∈
      denote trivialFillet (make_silicone_mold_outer false) := by
  norm_num [make_silicone_mold_outer, _make_silicone_cast_positive_outline,
    denote, boxSet, cylSet, cylXInterval, AlignAxis.interval, align_CENTER,
    align_TOP, align_LEFT, trivialFillet, bolt_hole_signs_eq, pythonTruthy,
    Set.mem_setOf_eq, Set.mem_union, Set.mem_diff, Set.mem_inter_iff,
    total_mold_outside_length, total_mold_outside_height,
    total_cast_outside_length, total_cast_outside_height,
    top_filament_saver_box, bottom_filament_saver_box, mold_general_t,
    silicone_vertical_wall_t, silicone_horizontal_wall_t, hot_level_width,
    top_level_width, hot_level_height, top_level_height, bolt_diameter,
    bolt_standoff_od, bolt_standoff_length, cast_outline_bbox_center_z,
    max_def]

/-- Witness for C8: the half-space bound applied at the concrete flag
`False`, the trivial fillet interpretation and the concrete point
(114, 50, 0) of the outer mold. -/
theorem mold_outer_positive_x_witness : (0 : ℚ) ≤ 114 :=
  mold_outer_positive_x_and_cast_unclipped.1 false trivialFillet
    (114, 50, 0) outer_sample_point_mem

/-- With a non-expanding fillet interpretation, the inner mold stays
inside its outline box: after the initial outline every construction step
of `make_silicone_mold_inner` subtracts material. -/
theorem denote_inner_subset_outline {fi : FilletInterp}
    (hfi : FilletShrinks fi) :
    denote fi make_silicone_mold_inner ⊆
      boxSet ⟨total_cast_outside_length, total_cast_outside_length,
        total_cast_outside_height, align_CENTER⟩ := by
  intro q hq
  simp only [make_silicone_mold_inner] at hq
  have h1 := mem_denote_sub (mem_denote_sub hq)
  have h2 := mem_denote_foldl _ (fun p yz r h => mem_denote_sub h) _ _ _ h1
  have h3 := mem_denote_sub h2
  simp only [_make_silicone_cast_positive_outline, denote,
    Set.mem_union, Set.mem_empty_iff_false, false_or] at h3
  have h4 := hfi _ _ _ h3
  simpa using h4

/-- C10: the union of the two inner-mold halves equals the inner mold:
both halves are selector-box intersections, and the FRONT and BACK
1000-cubes together cover the whole inner mold, whose extent
`total_mold_outside_length` is far below 1000. -/
theorem inner_halves_union_eq_inner :
    ∀ fi : FilletInterp, FilletShrinks fi →
    make_silicone_mold_inner_half "left" =
      .ok (make_silicone_mold_inner.inter
        (.box ⟨1000, 1000, 1000, align_FRONT⟩)) ∧
    make_silicone_mold_inner_half "right" =
      .ok (make_silicone_mold_inner.inter
        (.box ⟨1000, 1000, 1000, align_BACK⟩)) ∧
    denote fi ((make_silicone_mold_inner.inter
        (.box ⟨1000, 1000, 1000, align_FRONT⟩)).add
      (make_silicone_mold_inner.inter
        (.box ⟨1000, 1000, 1000, align_BACK⟩))) =
      denote fi make_silicone_mold_inner ∧
    total_mold_outside_length < 1000 := by
  intro fi hfi
  refine ⟨rfl, rfl, ?_, by
    norm_num [total_mold_outside_length, total_cast_outside_length,
      mold_general_t, silicone_vertical_wall_t, hot_level_width,
      top_level_width, max_def]⟩
  ext q
  simp only [denote, Set.mem_union, Set.mem_inter_iff]
  constructor
  · rintro (⟨h, -⟩ | ⟨h, -⟩) <;> exact h
  · intro h
    have hb := denote_inner_subset_outline hfi h
    norm_num [boxSet, align_CENTER, AlignAxis.interval, Set.mem_setOf_eq,
      total_cast_outside_length, total_cast_outside_height,
      silicone_vertical_wall_t, silicone_horizontal_wall_t, hot_level_width,
      top_level_width, hot_level_height, top_level_height, max_def] at hb
    obtain ⟨⟨hx1, hx2⟩, ⟨hy1, hy2⟩, hz1, hz2⟩ := hb
    rcases le_or_lt 0 q.2.1 with hy | hy
    · refine Or.inl ⟨h, ?_⟩
      simp only [boxSet, align_FRONT, AlignAxis.interval, Set.mem_setOf_eq]
      refine ⟨⟨by linarith, by linarith⟩, ⟨hy, by linarith⟩,
        by linarith, by linarith⟩
    · refine Or.inr ⟨h, ?_⟩
      simp only [boxSet, align_BACK, AlignAxis.interval, Set.mem_setOf_eq]
      refine ⟨⟨by linarith, by linarith⟩, ⟨by linarith, by linarith⟩,
        by linarith, by linarith⟩

/-- Witness for C10: the halves-union identity at the trivial fillet
interpretation, which shrinks trivially. -/
theorem inner_halves_union_eq_inner_witness :
    denote trivialFillet ((make_silicone_mold_inner.inter
        (.box ⟨1000, 1000, 1000, align_FRONT⟩)).add
      (make_silicone_mold_inner.inter
        (.box ⟨1000, 1000, 1000, align_BACK⟩))) =
      denote trivialFillet make_silicone_mold_inner :=
  (inner_halves_union_eq_inner trivialFillet
    (fun _ _ _ => subset_rfl)).2.2.1

end HotplateMold
